import Mathlib

/-!
Shallow embedding of the orchestration core of the yt-shorts-automation
repository, together with proofs of its specified properties.

Conventions used throughout:
* Python floats that only ever hold exact durations/delays are modelled as `ℚ`.
* Python strings are modelled as Lean `String`; Python's code-point
  lexicographic comparison is modelled by the executable `charListLt` below
  (Lean's built-in `String.ltb` is equivalent but does not reduce in the
  kernel).
* Python dictionaries with possibly-missing or dynamically-typed entries are
  modelled with `Option`/`PyField`.
* External collaborators (OpenAI, Pexels, ffmpeg/ffprobe, YouTube, the
  filesystem, APScheduler, `time`/`random`) are modelled by explicit
  parameters carrying their observable outcomes, as the orchestration core
  only consumes their results.
-/

set_option maxRecDepth 10000

namespace YtShorts

/-! ### Python string primitives -/

/-- Code-point lexicographic comparison of character lists; this is the
order Python uses for `str` comparison (`sorted`, `<`). -/
def charListLt : List Char → List Char → Bool
  | [], [] => false
  | [], _ :: _ => true
  | _ :: _, [] => false
  | a :: as, b :: bs => if a < b then true else if b < a then false else charListLt as bs

/-- Python `s < t` on strings. -/
def pyStrLt (s t : String) : Bool := charListLt s.toList t.toList

/-- Python `s <= t` on strings (total order complement of `pyStrLt`). -/
def pyStrLe (s t : String) : Bool := ! pyStrLt t s

/-- Python `sub in s` substring test on character lists. -/
def hasSubChars (sub : List Char) : List Char → Bool
  | [] => sub.isPrefixOf []
  | c :: cs => sub.isPrefixOf (c :: cs) || hasSubChars sub cs

/-- Python `sub in s` substring test. -/
def strContains (s sub : String) : Bool := hasSubChars sub.toList s.toList

/-- Python `str.strip()` (whitespace trimming at both ends). -/
def pyStrip (s : String) : String :=
  String.mk (((s.toList.dropWhile Char.isWhitespace).reverse.dropWhile
    Char.isWhitespace).reverse)

/-- A single-quote character as a string (used by Python `repr` of strings). -/
def sq : String := String.singleton (Char.ofNat 39)

/-- Python `str(list_of_strings)`, e.g. `['a', 'b']`, as interpolated into
f-strings by the validators and the orchestrator. -/
def pyListRepr (l : List String) : String :=
  "[" ++ String.intercalate ", " (l.map (fun s => sq ++ s ++ sq)) ++ "]"

/-- Rendering of an exact numeric value into an f-string. Python prints
floats in decimal notation; the exact textual form of numbers is abstracted
(messages built with it are never compared character-by-character). -/
def ratStr (q : ℚ) : String :=
  if q.den = 1 then Int.repr q.num else Int.repr q.num ++ "/" ++ Nat.repr q.den

/-! ### Configuration (`app/core/config.py`)

Only the fields the orchestration core reads are modelled:
`settings.max_video_duration`, `settings.video_width`,
`settings.video_height` and `file_retention.auto_cleanup`. -/

structure Config where
  max_video_duration : ℚ
  video_width : Nat
  video_height : Nat
  auto_cleanup : Bool

/-! ### Dynamically-typed payload fields -/

/-- A Python dict entry that may be absent, present with an unexpected
runtime type (carrying its `repr` for message interpolation), or present
with the expected type. -/
inductive PyField (α : Type) where
  | absent : PyField α
  | wrongType (pyRepr : String) : PyField α
  | val (a : α) : PyField α
deriving DecidableEq

/-- Python `field in dict`. -/
def PyField.isPresent {α : Type} : PyField α → Bool
  | .absent => false
  | _ => true

/-- Python `dict.get(field, 0)` for a numeric field (only evaluated when the
field is absent or numeric). -/
def PyField.getNum : PyField ℚ → ℚ
  | .absent => 0
  | .wrongType _ => 0
  | .val q => q

/-- Whether the field is present with an unexpected runtime type. -/
def PyField.isWrongTypeB {α : Type} : PyField α → Bool
  | .wrongType _ => true
  | _ => false

/-! ### Validators (`app/pipeline/validators.py`) -/

/-- One scene dictionary of the script payload, at the granularity
`PipelineValidator._validate_scene` inspects it. `scene_id` is only tested
for presence; `description`/`voiceover` are strings when present;
`duration` may be absent, non-numeric, or a number. -/
structure Scene where
  hasSceneId : Bool
  description : Option String
  voiceover : Option String
  duration : PyField ℚ
deriving DecidableEq

/-- The script dictionary, at the granularity `validate_script` inspects
it. `tags`/`scenes` may be present with a non-list runtime type. -/
structure ScriptData where
  title : Option String
  description : Option String
  tags : PyField (List String)
  scenes : PyField (List Scene)
deriving DecidableEq

/-- Transcription of `PipelineValidator._validate_scene`. -/
def validate_scene (scene : Scene) (scene_number : Nat) : List String :=
  let sn := "Scene " ++ Nat.repr scene_number
  (if scene.hasSceneId then [] else [sn ++ ": missing field " ++ sq ++ "scene_id" ++ sq])
  ++ (if scene.description.isSome then []
      else [sn ++ ": missing field " ++ sq ++ "description" ++ sq])
  ++ (if scene.voiceover.isSome then []
      else [sn ++ ": missing field " ++ sq ++ "voiceover" ++ sq])
  ++ (if scene.duration.isPresent then []
      else [sn ++ ": missing field " ++ sq ++ "duration" ++ sq])
  ++ (match scene.description with
      | some d => if pyStrip d = "" then [sn ++ ": description is empty"] else []
      | none => [])
  ++ (match scene.voiceover with
      | some v => if pyStrip v = "" then [sn ++ ": voiceover is empty"] else []
      | none => [])
  ++ (match scene.duration with
      | .absent => []
      | .wrongType r => [sn ++ ": invalid duration " ++ r]
      | .val q => if q ≤ 0 then [sn ++ ": invalid duration " ++ ratStr q] else [])

/-- The message of the `TypeError` Python raises when `sum` meets a
non-numeric scene duration at line 79 of `validators.py`; its exact text is
abstracted. -/
def pyTypeErrorMsg : String :=
  "unsupported operand type(s) for +"

/-- Transcription of `PipelineValidator.validate_script`. The `Except`
layer records that the function raises (rather than returns) when the
total-duration sum meets a non-numeric duration. -/
def validate_script (cfg : Config) (sd : ScriptData) :
    Except String (Bool × List String) :=
  let issues : List String :=
    (if sd.title.isSome then [] else ["Missing required field: title"])
    ++ (if sd.description.isSome then [] else ["Missing required field: description"])
    ++ (if sd.tags.isPresent then [] else ["Missing required field: tags"])
    ++ (if sd.scenes.isPresent then [] else ["Missing required field: scenes"])
  let issues := issues ++ (match sd.title with
    | none => []
    | some title =>
      if title = "" then ["Title is empty"]
      else if title.length > 100 then
        ["Title too long: " ++ Nat.repr title.length ++ " chars (max 100)"]
      else [])
  let issues := issues ++ (match sd.description with
    | none => []
    | some description =>
      if description = "" then ["Description is empty"]
      else if description.length > 5000 then
        ["Description too long: " ++ Nat.repr description.length ++ " chars (max 5000)"]
      else [])
  let issues := issues ++ (match sd.tags with
    | .absent => []
    | .wrongType _ => ["Tags must be a list"]
    | .val tags => if tags.length = 0 then ["No tags provided"] else [])
  let issues := issues ++ (match sd.scenes with
    | .absent => []
    | .wrongType _ => ["Scenes must be a list"]
    | .val scenes =>
      if scenes.length = 0 then ["No scenes provided"]
      else (scenes.enum.map (fun p => validate_scene p.2 (p.1 + 1))).flatten)
  match sd.scenes with
  | .val scenes =>
    if scenes.any (fun sc => sc.duration.isWrongTypeB) then .error pyTypeErrorMsg
    else
      let total := (scenes.map (fun sc => sc.duration.getNum)).sum
      let issues := issues ++
        (if total ≥ cfg.max_video_duration then
          ["Total duration " ++ ratStr total ++ "s exceeds maximum "
            ++ ratStr cfg.max_video_duration ++ "s"]
        else [])
      .ok (issues.isEmpty, issues)
  | _ => .ok (issues.isEmpty, issues)

/-! ### Filesystem / media-probe view consumed by the validators -/

/-- Outcome of the ffprobe call of `validate_audio`. -/
inductive FormatProbe where
  | ok (duration : ℚ)
  | fail (stderr : String)
  | exc (msg : String)
deriving DecidableEq

/-- One entry of ffprobe's stream list, at the granularity
`validate_video` inspects it. -/
structure StreamRec where
  codec_type : String
  width : Nat
  height : Nat
deriving DecidableEq

/-- Outcome of the ffprobe call of `validate_video`. -/
inductive AVProbe where
  | ok (streams : List StreamRec) (duration : ℚ)
  | fail (stderr : String)
  | exc (msg : String)
deriving DecidableEq

/-- The filesystem and probe facts the validators observe. -/
structure MediaFS where
  pathExists : String → Bool
  fileSize : String → Nat
  audioProbe : String → FormatProbe
  videoProbe : String → AVProbe

/-- Transcription of `PipelineValidator.validate_audio`. -/
def validate_audio (cfg : Config) (fs : MediaFS) (audio_path : String)
    (max_duration : Option ℚ) : Bool × List String :=
  let maxD := match max_duration with
    | none => cfg.max_video_duration
    | some m => m
  if ! fs.pathExists audio_path then
    (false, ["Audio file not found: " ++ audio_path])
  else if fs.fileSize audio_path = 0 then
    (false, ["Audio file is empty"])
  else
    let issues := match fs.audioProbe audio_path with
      | .ok duration =>
        (if duration ≥ maxD then
          ["Audio duration " ++ ratStr duration ++ "s exceeds maximum "
            ++ ratStr maxD ++ "s"]
        else [])
        ++ (if duration = 0 then ["Audio has zero duration"] else [])
      | .fail stderr => ["Failed to probe audio: " ++ stderr]
      | .exc m => ["Failed to validate audio: " ++ m]
    (issues.isEmpty, issues)

/-- Transcription of `PipelineValidator.validate_video`. The Python loop
keeps the last stream of each codec type, hence `getLast?`. -/
def validate_video (cfg : Config) (fs : MediaFS) (video_path : String) :
    Bool × List String :=
  if ! fs.pathExists video_path then
    (false, ["Video file not found: " ++ video_path])
  else if fs.fileSize video_path = 0 then
    (false, ["Video file is empty"])
  else
    let issues := match fs.videoProbe video_path with
      | .ok streams duration =>
        let video_stream := (streams.filter (fun s => s.codec_type == "video")).getLast?
        let audio_stream := (streams.filter (fun s => s.codec_type == "audio")).getLast?
        (match video_stream with
          | none => ["No video stream found"]
          | some vs =>
            (if vs.width ≠ cfg.video_width then
              ["Video width " ++ Nat.repr vs.width ++ " != expected "
                ++ Nat.repr cfg.video_width]
            else [])
            ++ (if vs.height ≠ cfg.video_height then
              ["Video height " ++ Nat.repr vs.height ++ " != expected "
                ++ Nat.repr cfg.video_height]
            else []))
        ++ (if duration ≥ cfg.max_video_duration then
          ["Video duration " ++ ratStr duration ++ "s >= maximum "
            ++ ratStr cfg.max_video_duration ++ "s"]
        else [])
        ++ (if duration = 0 then ["Video has zero duration"] else [])
        ++ (if audio_stream.isNone then ["Video has no audio track"] else [])
      | .fail stderr => ["Failed to probe video: " ++ stderr]
      | .exc m => ["Failed to validate video: " ++ m]
    (issues.isEmpty, issues)

/-! ### Retry with exponential backoff (`app/utils/retry.py`) -/

/-- A Python exception as seen by `retry_with_backoff`: `rateLimit`
corresponds to `RateLimitError` (with its optional `retry_after`),
`generic` to every other exception class, keyed by its message. -/
inductive PyErr where
  | rateLimit (msg : String) (retry_after : Option ℚ)
  | generic (msg : String)
deriving DecidableEq

/-- `e.retry_after` when `isinstance(e, RateLimitError)`, else no field. -/
def PyErr.retryAfterField : PyErr → Option ℚ
  | .rateLimit _ ra => ra
  | .generic _ => none

/-- How one call of the wrapped function terminates. -/
inductive RetryResult (α : Type) where
  | value (a : α)
  | raised (e : PyErr)
  | noneReturned
deriving DecidableEq

/-- Observable behaviour of one run of a `retry_with_backoff`-wrapped
function: the final outcome, how many times the wrapped function was
invoked, and the sequence of delays slept between attempts. -/
structure RetryTrace (α : Type) where
  result : RetryResult α
  calls : Nat
  delays : List ℚ
deriving DecidableEq

/-- The body of the `while attempt < max_attempts` loop of
`retry_with_backoff.decorator.wrapper`. `attempt` is the Python variable of
the same name (failures so far, also the 0-based index of the current
call); `fuel` maintains `fuel = (max_attempts - attempt).toNat`, so the
loop guard `attempt < max_attempts` is exactly `fuel ≠ 0`, and after
`attempt += 1` the exit test `attempt >= max_attempts` is exactly
`fuel - 1 = 0`. `op k` is the outcome of the `k`-th invocation of the
wrapped function, `catches e` the membership test of `e`'s class in the
`exceptions` tuple, and `rand k` the `k`-th draw of `random.random()`. -/
def retryLoop {α : Type} (op : Nat → Except PyErr α)
    (base_delay max_delay exponential_base : ℚ) (catches : PyErr → Bool)
    (jitter : Bool) (rand : Nat → ℚ) :
    Nat → Nat → List ℚ → RetryTrace α
  | _, 0, ds => ⟨.noneReturned, 0, ds.reverse⟩
  | attempt, fuel + 1, ds =>
    match op attempt with
    | .ok a => ⟨.value a, attempt + 1, ds.reverse⟩
    | .error e =>
      if catches e then
        let attempt1 := attempt + 1
        if fuel = 0 then ⟨.raised e, attempt1, ds.reverse⟩
        else
          let delay := min (base_delay * exponential_base ^ (attempt1 - 1)) max_delay
          let delay := if jitter then delay * (1/2 + rand attempt) else delay
          let delay := match e.retryAfterField with
            | some ra => if ra = 0 then delay else max delay ra
            | none => delay
          retryLoop op base_delay max_delay exponential_base catches jitter rand
            attempt1 fuel (delay :: ds)
      else ⟨.raised e, attempt + 1, ds.reverse⟩

/-- One run of a function wrapped by the `retry_with_backoff` decorator.
`max_attempts` is an `Int` because Python imposes no lower bound on it;
the loop guard `attempt < max_attempts` never holds when it is `≤ 0`. -/
def retry_with_backoff {α : Type} (max_attempts : Int)
    (base_delay max_delay exponential_base : ℚ) (catches : PyErr → Bool)
    (jitter : Bool) (rand : Nat → ℚ) (op : Nat → Except PyErr α) :
    RetryTrace α :=
  retryLoop op base_delay max_delay exponential_base catches jitter rand
    0 max_attempts.toNat []

/-! ### Circuit breaker (`app/utils/retry.py`, class `CircuitBreaker`) -/

inductive CBState where
  | closed
  | open
  | half_open
deriving DecidableEq

/-- The mutable state of a `CircuitBreaker` instance together with its
construction parameters. `last_failure_time` starts as `None`. -/
structure CB where
  failure_threshold : Nat
  recovery_timeout : ℚ
  failure_count : Nat
  last_failure_time : Option ℚ
  state : CBState
deriving DecidableEq

/-- A freshly constructed breaker (`CircuitBreaker.__init__`). -/
def CB.init (failure_threshold : Nat) (recovery_timeout : ℚ) : CB :=
  ⟨failure_threshold, recovery_timeout, 0, none, .closed⟩

/-- Behaviour of the wrapped function during one `call`: it returns, raises
an exception matching `expected_exception`, or raises a non-matching one. -/
inductive OpBehavior where
  | success
  | failMatch
  | failNonMatch
deriving DecidableEq

/-- How `CircuitBreaker.call` terminates, as observed by its caller.
`typeError` is the `TypeError` Python would raise on `time.time() - None`
(never reachable from `CB.init`, see `CB.Reachable`). -/
inductive CBResult where
  | ok
  | circuitOpenError
  | opFailed (matched : Bool)
  | typeError
deriving DecidableEq

/-- The `try:` body of `CircuitBreaker.call` (after the open-state guard),
acting on the breaker state current at that point. -/
def CB.callBody (cb : CB) (now : ℚ) (op : OpBehavior) : CBResult × CB :=
  match op with
  | .success =>
    if cb.state = .half_open then
      (.ok, { cb with state := .closed, failure_count := 0 })
    else (.ok, cb)
  | .failMatch =>
    let cb := { cb with
      failure_count := cb.failure_count + 1, last_failure_time := some now }
    if cb.failure_count ≥ cb.failure_threshold then
      (.opFailed true, { cb with state := .open })
    else (.opFailed true, cb)
  | .failNonMatch => (.opFailed false, cb)

/-- Transcription of `CircuitBreaker.call`. `now` is the value of
`time.time()` during this call (the code reads it twice; the in-between
run of the wrapped function is modelled as instantaneous). -/
def CB.call (cb : CB) (now : ℚ) (op : OpBehavior) : CBResult × CB :=
  if cb.state = .open then
    match cb.last_failure_time with
    | none => (.typeError, cb)
    | some t =>
      if now - t ≥ cb.recovery_timeout then
        CB.callBody { cb with state := .half_open } now op
      else (.circuitOpenError, cb)
  else CB.callBody cb now op

/-- Breaker states reachable from a fresh instance through `call`. -/
inductive CB.Reachable (th : Nat) (tmo : ℚ) : CB → Prop where
  | init : CB.Reachable th tmo (CB.init th tmo)
  | step (cb : CB) (now : ℚ) (op : OpBehavior) :
      CB.Reachable th tmo cb → CB.Reachable th tmo (CB.call cb now op).2

/-! ### Batch clip generation (`app/services/video_generator.py`,
`VideoGenerator.generate_clips_batch`) -/

/-- Python `f"{n:02d}"`: zero-pad the decimal rendering to width 2. -/
def py02d (n : Nat) : String := if n < 10 then "0" ++ Nat.repr n else Nat.repr n

/-- The output path submitted for (0-based) task `i`:
`str(output_dir_path / f"scene_{scene_id:02d}.mp4")` with
`scene_id = i + 1`. On success `generate_video_clip` returns exactly this
path (formatting replaces the file in place). -/
def scenePath (output_dir : String) (scene_id : Nat) : String :=
  output_dir ++ "/scene_" ++ py02d scene_id ++ ".mp4"

/-- Errors raised out of `generate_clips_batch`
(`VideoGenerationError(message)`). -/
inductive BatchErr where
  | vge (msg : String)
deriving DecidableEq

/-- The comparison `clips.sort(key=lambda x: x[0])` sorts by: Python's
code-point order on the path component. -/
def clipLe (a b : String × ℚ) : Prop := pyStrLe a.1 b.1 = true

/-- Strict version of `clipLe`. -/
def clipLt (a b : String × ℚ) : Prop := pyStrLt a.1 b.1 = true

instance : DecidableRel clipLe :=
  fun a b => inferInstanceAs (Decidable (pyStrLe a.1 b.1 = true))

instance : DecidableRel clipLt :=
  fun a b => inferInstanceAs (Decidable (pyStrLt a.1 b.1 = true))

instance {ε α : Type} [DecidableEq ε] [DecidableEq α] : DecidableEq (Except ε α) :=
  fun a b =>
    match a, b with
    | .ok x, .ok y =>
      if h : x = y then .isTrue (congrArg _ h)
      else .isFalse (fun hh => h (Except.ok.inj hh))
    | .error x, .error y =>
      if h : x = y then .isTrue (congrArg _ h)
      else .isFalse (fun hh => h (Except.error.inj hh))
    | .ok _, .error _ => .isFalse (fun hh => Except.noConfusion hh)
    | .error _, .ok _ => .isFalse (fun hh => Except.noConfusion hh)

/-- The `for future in as_completed(futures)` collection loop.
`order` is the order in which the concurrent workers complete, as a list of
0-based task indices; `fail i = some msg` means task `i`'s worker
(`generate_video_clip`, including its own retries) ultimately raised with
message `msg`, while `fail i = none` means it returned
`(scenePath dir (i+1), dur i)`. `clips` accumulates `clips.append(...)`. -/
def collectClips (dir : String) (dur : Nat → ℚ) (fail : Nat → Option String) :
    List Nat → List (String × ℚ) → Except BatchErr (List (String × ℚ))
  | [], clips => .ok clips
  | i :: rest, clips =>
    match fail i with
    | some msg =>
      .error (.vge ("Scene " ++ Nat.repr (i + 1) ++ " generation failed: " ++ msg))
    | none => collectClips dir dur fail rest (clips ++ [(scenePath dir (i + 1), dur i)])

/-- Transcription of `VideoGenerator.generate_clips_batch` for `n` prompts:
collect worker results in completion order, then
`clips.sort(key=lambda x: x[0])` — a sort keyed on the output path string
under Python's code-point order (the key set is duplicate-free, so any
stable sort model yields the same list; insertion sort is used). A raised
`VideoGenerationError` passes through the outer `except` unchanged. -/
def generate_clips_batch (dir : String) (dur : Nat → ℚ)
    (fail : Nat → Option String) (order : List Nat) :
    Except BatchErr (List (String × ℚ)) :=
  match collectClips dir dur fail order [] with
  | .error e => .error e
  | .ok clips => .ok (List.insertionSort clipLe clips)

/-- The submission-order result list: one `(path, duration)` per task,
in task order. -/
def submissionClips (dir : String) (dur : Nat → ℚ) (n : Nat) : List (String × ℚ) :=
  (List.range n).map (fun i => (scenePath dir (i + 1), dur i))

/-! ### Orchestrator (`app/pipeline/orchestrator.py`) -/

/-- `PipelineError(message, step, job_id)`. -/
structure PipelineError where
  message : String
  step : Option String
  job_id : Option String
deriving DecidableEq

/-- An exception escaping a pipeline step inside `run_pipeline`'s `try`:
either a `PipelineError` raised by a `_step_*` helper, or the
`FileOperationError` of `create_job_directories` (the only code in the
`try` block outside the step helpers). -/
inductive RunExc where
  | pipe (pe : PipelineError)
  | fileOp (msg : String)
deriving DecidableEq

/-- Python `str(e)` for the exceptions above (`VideoAutomationError.__str__`
yields the message). -/
def RunExc.message : RunExc → String
  | .pipe pe => pe.message
  | .fileOp m => m

/-- Upload result dictionary returned by `YouTubeUploader.upload_video`. -/
structure UploadResult where
  video_id : String
  video_url : String
  shorts_url : String
deriving DecidableEq

/-- The success dictionary built by `run_pipeline` (wall-clock fields
`execution_time_seconds` / `completed_at` are not modelled). -/
structure PipelineResult where
  job_id : String
  status : String
  title : String
  video_path : String
  video_duration : ℚ
  video_id : String
  video_url : String
  shorts_url : String
deriving DecidableEq

/-- Outcomes of the external collaborators and filesystem effects consumed
by one `run_pipeline` run. Collaborator calls are modelled by the results
they would produce if reached; `.error m` means the call raises with
`str(e) = m` (after its own internal retries). -/
structure StageEnv where
  dirCreation : Except String Unit
  scriptGen : Except String ScriptData
  saveScript : Except String Unit
  clipsGen : Except String (List (String × ℚ))
  audioGen : Except String (String × ℚ)
  combine : Except String (String × ℚ)
  upload : Except String UploadResult
  fs : MediaFS

/-- Transcription of `VideoOrchestrator._get_current_step`: structured
`step` tag when the exception is a `PipelineError` (Python's `or` makes an
empty/absent tag fall back to `"unknown"`), else the keyword heuristic
over the lower-cased message. -/
def get_current_step (e : RunExc) : String :=
  match e with
  | .pipe pe =>
    match pe.step with
    | some s => if s = "" then "unknown" else s
    | none => "unknown"
  | .fileOp m =>
    let msg := m.toLower
    if strContains msg "script" then "script_generation"
    else if strContains msg "prompt" then "prompt_enhancement"
    else if strContains msg "video" || strContains msg "clip"
        || strContains msg "gemini" then "video_generation"
    else if strContains msg "audio" then "audio_generation"
    else if strContains msg "combine" || strContains msg "concatenate" then
      "video_combination"
    else if strContains msg "youtube" || strContains msg "upload" then
      "youtube_upload"
    else "unknown"

/-- Transcription of `VideoOrchestrator._step_generate_script`: collaborator
call, script validation (a failing report raises `ValidationError`), script
save; every exception is wrapped in a `PipelineError` tagged
`"script_generation"`. -/
def step_generate_script (cfg : Config) (env : StageEnv) (job_id : String) :
    Except RunExc ScriptData :=
  let wrap : String → RunExc := fun m =>
    .pipe ⟨"Script generation failed: " ++ m, some "script_generation", some job_id⟩
  match env.scriptGen with
  | .error m => .error (wrap m)
  | .ok sd =>
    match validate_script cfg sd with
    | .error tymsg => .error (wrap tymsg)
    | .ok (is_valid, issues) =>
      if is_valid then
        match env.saveScript with
        | .error m => .error (wrap m)
        | .ok _ => .ok sd
      else .error (wrap ("Script validation failed: " ++ pyListRepr issues))

/-- Transcription of `VideoOrchestrator._step_generate_video_clips`. -/
def step_generate_video_clips (env : StageEnv) (job_id : String) :
    Except RunExc (List (String × ℚ)) :=
  match env.clipsGen with
  | .error m =>
    .error (.pipe ⟨"Video generation failed: " ++ m, some "video_generation", some job_id⟩)
  | .ok clips => .ok clips

/-- Transcription of `VideoOrchestrator._step_generate_audio`. -/
def step_generate_audio (cfg : Config) (env : StageEnv) (job_id : String) :
    Except RunExc (String × ℚ) :=
  let wrap : String → RunExc := fun m =>
    .pipe ⟨"Audio generation failed: " ++ m, some "audio_generation", some job_id⟩
  match env.audioGen with
  | .error m => .error (wrap m)
  | .ok (audio_path, duration) =>
    let (is_valid, issues) := validate_audio cfg env.fs audio_path none
    if is_valid then .ok (audio_path, duration)
    else .error (wrap ("Audio validation failed: " ++ pyListRepr issues))

/-- Transcription of `VideoOrchestrator._step_combine_video_audio`. -/
def step_combine_video_audio (cfg : Config) (env : StageEnv) (job_id : String) :
    Except RunExc (String × ℚ) :=
  let wrap : String → RunExc := fun m =>
    .pipe ⟨"Video combination failed: " ++ m, some "video_combination", some job_id⟩
  match env.combine with
  | .error m => .error (wrap m)
  | .ok (video_path, duration) =>
    let (is_valid, issues) := validate_video cfg env.fs video_path
    if is_valid then .ok (video_path, duration)
    else .error (wrap ("Video validation failed: " ++ pyListRepr issues))

/-- Transcription of `VideoOrchestrator._step_upload_to_youtube`. -/
def step_upload_to_youtube (env : StageEnv) (job_id : String) :
    Except RunExc UploadResult :=
  match env.upload with
  | .error m =>
    .error (.pipe ⟨"YouTube upload failed: " ++ m, some "youtube_upload", some job_id⟩)
  | .ok u => .ok u

/-- The `try` block of `run_pipeline`: directory creation then the five
stages in order, threading intermediate results. -/
def runSteps (cfg : Config) (env : StageEnv) (job_id : String) :
    Except RunExc PipelineResult :=
  match env.dirCreation with
  | .error m => .error (.fileOp ("Failed to create job directories: " ++ m))
  | .ok _ =>
    match step_generate_script cfg env job_id with
    | .error e => .error e
    | .ok script_data =>
      match step_generate_video_clips env job_id with
      | .error e => .error e
      | .ok _clips =>
        match step_generate_audio cfg env job_id with
        | .error e => .error e
        | .ok _audio =>
          match step_combine_video_audio cfg env job_id with
          | .error e => .error e
          | .ok (video_path, video_duration) =>
            match step_upload_to_youtube env job_id with
            | .error e => .error e
            | .ok u =>
              .ok { job_id := job_id, status := "success",
                    title := (script_data.title).getD "",
                    video_path := video_path, video_duration := video_duration,
                    video_id := u.video_id, video_url := u.video_url,
                    shorts_url := u.shorts_url }

/-- Transcription of `VideoOrchestrator.run_pipeline`. The second component
reports whether the job's workspace directories still exist when the call
returns: they are created at the start and, on failure, deleted before the
`PipelineError` propagates exactly when `auto_cleanup` is enabled. -/
def run_pipeline (cfg : Config) (env : StageEnv) (job_id : String) :
    Except PipelineError PipelineResult × Bool :=
  let created := match env.dirCreation with | .ok _ => true | .error _ => false
  match runSteps cfg env job_id with
  | .ok r => (.ok r, created)
  | .error e =>
    (.error ⟨"Pipeline execution failed: " ++ e.message,
             some (get_current_step e), some job_id⟩,
     created && ! cfg.auto_cleanup)

/-- The stage at which the pipeline first fails, replayed from the
environment (the specification-level view the orchestrator's failure
attribution is checked against). `none` when every stage succeeds. -/
def firstFailingStage (cfg : Config) (env : StageEnv) : Option String :=
  match env.scriptGen with
  | .error _ => some "script_generation"
  | .ok sd =>
    match validate_script cfg sd with
    | .error _ => some "script_generation"
    | .ok (is_valid, _) =>
      if ! is_valid then some "script_generation"
      else match env.saveScript with
      | .error _ => some "script_generation"
      | .ok _ =>
        match env.clipsGen with
        | .error _ => some "video_generation"
        | .ok _ =>
          match env.audioGen with
          | .error _ => some "audio_generation"
          | .ok (audio_path, _) =>
            if ! (validate_audio cfg env.fs audio_path none).1 then
              some "audio_generation"
            else match env.combine with
            | .error _ => some "video_combination"
            | .ok (video_path, _) =>
              if ! (validate_video cfg env.fs video_path).1 then
                some "video_combination"
              else match env.upload with
              | .error _ => some "youtube_upload"
              | .ok _ => none

/-! ### Scheduler (`scheduler.py`)

The `BackgroundScheduler` of the APScheduler library is modelled by the
contract `scheduler.py` relies on: a `running` flag and a job table keyed by
id, where `add_job(..., replace_existing=True)` replaces any job already
registered under the same id. -/

/-- One registered trigger, with the registration parameters
`start_scheduler` passes. -/
structure SchedJob where
  id : String
  name : String
  interval_hours : Nat
  max_instances : Nat
  misfire_grace_time : Nat
deriving DecidableEq

/-- The scheduler singleton's observable state. -/
structure SchedState where
  running : Bool
  jobs : List SchedJob
deriving DecidableEq

/-- `scheduler.add_job(..., replace_existing=True)`. -/
def addJobReplacing (s : SchedState) (j : SchedJob) : SchedState :=
  ⟨s.running, (s.jobs.filter (fun j0 => j0.id ≠ j.id)) ++ [j]⟩

/-- The recurring trigger registered by `start_scheduler`. -/
def videoGenerationJob (schedule_interval_hours : Nat) : SchedJob :=
  ⟨"video_generation_job", "Generate and upload YouTube Short",
   schedule_interval_hours, 1, 3600⟩

/-- Transcription of `start_scheduler`: a no-op when already running,
otherwise register the single recurring trigger and start. -/
def start_scheduler (schedule_interval_hours : Nat) (s : SchedState) : SchedState :=
  if s.running then s
  else
    let s := addJobReplacing s (videoGenerationJob schedule_interval_hours)
    ⟨true, s.jobs⟩

/-- The number of triggers registered under an id. -/
def triggerCount (s : SchedState) (id : String) : Nat :=
  (s.jobs.filter (fun j => j.id = id)).length

/-! ### Retry lemmas -/

/-- The delay slept after the failure of the (0-based) call `k`, as
computed at lines 62-70 of `retry.py` (formula, jitter, rate-limit floor). -/
def retryDelay (base_delay max_delay exponential_base : ℚ) (jitter : Bool)
    (rand : Nat → ℚ) (e : Nat → PyErr) (k : Nat) : ℚ :=
  let delay := min (base_delay * exponential_base ^ k) max_delay
  let delay := if jitter then delay * (1/2 + rand k) else delay
  match (e k).retryAfterField with
  | some ra => if ra = 0 then delay else max delay ra
  | none => delay

theorem retryLoop_allFail {α : Type} (op : Nat → Except PyErr α) (e : Nat → PyErr)
    (b M x : ℚ) (catches : PyErr → Bool) (jitter : Bool) (rand : Nat → ℚ)
    (hop : ∀ k, op k = .error (e k)) (hc : ∀ k, catches (e k) = true) :
    ∀ fuel attempt ds, 1 ≤ fuel →
      retryLoop op b M x catches jitter rand attempt fuel ds
      = ⟨.raised (e (attempt + fuel - 1)), attempt + fuel,
         ds.reverse ++ (List.range (fuel - 1)).map
           (fun i => retryDelay b M x jitter rand e (attempt + i))⟩ := by
  intro fuel
  induction fuel with
  | zero => intro _ _ h; omega
  | succ f ih =>
    intro attempt ds _
    rw [retryLoop, hop attempt]
    simp only [hc, if_true]
    match f, ih with
    | 0, _ =>
      simp [List.range_zero]
    | g + 1, ih =>
      have hg : (g + 1 ≠ 0) := by omega
      simp only [hg, if_false, reduceIte]
      rw [ih (attempt + 1) _ (by omega)]
      rw [RetryTrace.mk.injEq]
      refine ⟨congrArg (fun k => RetryResult.raised (e k)) (by omega), by omega, ?_⟩
      rw [List.reverse_cons, List.append_assoc]
      congr 1
      simp only [Nat.add_sub_cancel]
      rw [List.range_succ_eq_map, List.map_cons, List.map_map]
      refine congrArg₂ _ rfl ?_
      exact List.map_congr_left (fun i _ =>
        congrArg (fun k => retryDelay b M x jitter rand e k) (by omega))

/-- C6: for every `max_attempts = n ≥ 1`, a permanently-failing operation
whose raised errors are all in the configured retryable exception set is
invoked exactly `n` times, after which the last error propagates to the
caller unchanged, with the trace recording the attempt count `n`. -/
theorem retry_permanent_failure_invocations {α : Type} (n : Nat) (hn : 1 ≤ n)
    (b M x : ℚ) (catches : PyErr → Bool) (jitter : Bool) (rand : Nat → ℚ)
    (op : Nat → Except PyErr α) (e : Nat → PyErr)
    (hop : ∀ k, op k = .error (e k)) (hc : ∀ k, catches (e k) = true) :
    (retry_with_backoff (n : Int) b M x catches jitter rand op).result
      = .raised (e (n - 1))
    ∧ (retry_with_backoff (n : Int) b M x catches jitter rand op).calls = n := by
  have ht : ((n : Int)).toNat = n := rfl
  unfold retry_with_backoff
  rw [ht, retryLoop_allFail op e b M x catches jitter rand hop hc n 0 [] hn]
  exact ⟨by simp, by simp⟩

/-- Witness for C6 at `n = 3`: the wrapped operation is called exactly three
times and the third error is the one propagated. -/
theorem retry_permanent_failure_invocations_witness :
    (1 ≤ 3)
    ∧ (retry_with_backoff (3 : Int) 2 60 2 (fun _ => true) false (fun _ => 0)
        (fun k => (.error (.generic (Nat.repr k)) : Except PyErr Nat))).result
        = .raised (.generic "2")
    ∧ (retry_with_backoff (3 : Int) 2 60 2 (fun _ => true) false (fun _ => 0)
        (fun k => (.error (.generic (Nat.repr k)) : Except PyErr Nat))).calls = 3 := by
  have h := retry_permanent_failure_invocations (α := Nat) 3 (by decide) 2 60 2
    (fun _ => true) false (fun _ => 0)
    (fun k => .error (.generic (Nat.repr k))) (fun k => .generic (Nat.repr k))
    (fun _ => rfl) (fun _ => rfl)
  exact ⟨by decide, h.1, h.2⟩

/-- C7: with jitter disabled (and errors carrying no provider retry-after
hint), the delay slept before retry `attempt` (1-based) is exactly
`min (base_delay * backoff_multiplier ^ (attempt - 1), max_delay)`, and for
a policy with nonnegative base delay and multiplier at least 1 the sequence
is non-decreasing and never exceeds `max_delay`. -/
theorem backoff_delay_sequence {α : Type} (n : Nat) (hn : 1 ≤ n) (b M x : ℚ)
    (hb : 0 ≤ b) (hx : 1 ≤ x) (catches : PyErr → Bool) (rand : Nat → ℚ)
    (op : Nat → Except PyErr α) (e : Nat → PyErr)
    (hop : ∀ k, op k = .error (e k)) (hc : ∀ k, catches (e k) = true)
    (hra : ∀ k, (e k).retryAfterField = none) :
    (retry_with_backoff (n : Int) b M x catches false rand op).delays
      = (List.range (n - 1)).map (fun i => min (b * x ^ i) M)
    ∧ List.Chain' (· ≤ ·)
        ((retry_with_backoff (n : Int) b M x catches false rand op).delays)
    ∧ ∀ d ∈ (retry_with_backoff (n : Int) b M x catches false rand op).delays,
        d ≤ M := by
  have ht : ((n : Int)).toNat = n := rfl
  have hD : ∀ k, retryDelay b M x false rand e k = min (b * x ^ k) M := by
    intro k
    unfold retryDelay
    rw [hra k]
    simp
  have hdel : (retry_with_backoff (n : Int) b M x catches false rand op).delays
      = (List.range (n - 1)).map (fun i => min (b * x ^ i) M) := by
    unfold retry_with_backoff
    rw [ht, retryLoop_allFail op e b M x catches false rand hop hc n 0 [] hn]
    simp [hD]
  refine ⟨hdel, ?_, ?_⟩
  · rw [hdel]
    refine List.Pairwise.chain' ?_
    refine List.pairwise_map.mpr (List.Pairwise.imp_of_mem ?_ (List.pairwise_lt_range _))
    intro i j _ _ hij
    exact min_le_min
      (mul_le_mul_of_nonneg_left (pow_le_pow_right₀ hx (le_of_lt hij)) hb) le_rfl
  · rw [hdel]
    intro d hd
    obtain ⟨i, _, hi⟩ := List.mem_map.mp hd
    rw [← hi]
    exact min_le_right _ _

/-- Witness for C7 at `n = 3`, `base_delay = 2`, `max_delay = 60`,
`multiplier = 2`. -/
theorem backoff_delay_sequence_witness :
    (1 ≤ 3) ∧ (0 ≤ (2 : ℚ)) ∧ (1 ≤ (2 : ℚ))
    ∧ (retry_with_backoff (3 : Int) 2 60 2 (fun _ => true) false (fun _ => 0)
        (fun k => (.error (.generic (Nat.repr k)) : Except PyErr Nat))).delays
      = (List.range 2).map (fun i => min ((2 : ℚ) * 2 ^ i) 60) := by
  have h := backoff_delay_sequence (α := Nat) 3 (by decide) 2 60 2 (by norm_num)
    (by norm_num) (fun _ => true) (fun _ => 0)
    (fun k => .error (.generic (Nat.repr k))) (fun k => .generic (Nat.repr k))
    (fun _ => rfl) (fun _ => rfl) (fun _ => rfl)
  exact ⟨by decide, by norm_num, by norm_num, h.1⟩

/-- C9: with `max_attempts ≤ 0`, the wrapped function returns `None` without
the wrapped operation ever being invoked and without raising, whatever the
operation would have done. -/
theorem retry_nonpositive_max_attempts {α : Type} (max_attempts : Int)
    (h : max_attempts ≤ 0) (b M x : ℚ) (catches : PyErr → Bool) (jitter : Bool)
    (rand : Nat → ℚ) (op : Nat → Except PyErr α) :
    retry_with_backoff max_attempts b M x catches jitter rand op
      = ⟨.noneReturned, 0, []⟩ := by
  unfold retry_with_backoff
  rw [Int.toNat_of_nonpos h]
  rfl

/-- Witness for C9 at `max_attempts = -2` with an operation that would
succeed if it were ever invoked. -/
theorem retry_nonpositive_max_attempts_witness :
    ((-2 : Int) ≤ 0)
    ∧ retry_with_backoff (-2) 2 60 2 (fun _ => true) true (fun _ => 0)
        (fun _ => (.ok 7 : Except PyErr Nat))
      = ⟨.noneReturned, 0, []⟩ :=
  ⟨by decide,
   retry_nonpositive_max_attempts (-2) (by decide) 2 60 2 (fun _ => true) true
     (fun _ => 0) (fun _ => .ok 7)⟩
/-! ### Circuit-breaker lemmas -/

theorem CB.call_not_open (cb : CB) (now : ℚ) (op : OpBehavior)
    (h : cb.state ≠ .open) : CB.call cb now op = CB.callBody cb now op := by
  unfold CB.call
  rw [if_neg h]

theorem CB.call_open_within (cb : CB) (now t : ℚ) (op : OpBehavior)
    (hs : cb.state = .open) (hl : cb.last_failure_time = some t)
    (ht : now - t < cb.recovery_timeout) :
    CB.call cb now op = (.circuitOpenError, cb) := by
  unfold CB.call
  rw [if_pos hs, hl]
  exact if_neg (not_le.mpr ht)

theorem CB.call_open_elapsed (cb : CB) (now t : ℚ) (op : OpBehavior)
    (hs : cb.state = .open) (hl : cb.last_failure_time = some t)
    (ht : cb.recovery_timeout ≤ now - t) :
    CB.call cb now op = CB.callBody { cb with state := .half_open } now op := by
  unfold CB.call
  rw [if_pos hs, hl]
  exact if_pos ht

theorem CB.callBody_success_halfOpen (cb : CB) (now : ℚ)
    (h : cb.state = .half_open) :
    CB.callBody cb now .success
      = (.ok, { cb with state := .closed, failure_count := 0 }) := by
  unfold CB.callBody
  rw [if_pos h]

theorem CB.callBody_success_other (cb : CB) (now : ℚ)
    (h : cb.state ≠ .half_open) :
    CB.callBody cb now .success = (.ok, cb) := by
  unfold CB.callBody
  rw [if_neg h]

theorem CB.callBody_failMatch_ge (cb : CB) (now : ℚ)
    (h : cb.failure_threshold ≤ cb.failure_count + 1) :
    CB.callBody cb now .failMatch
      = (.opFailed true,
         { cb with failure_count := cb.failure_count + 1,
                   last_failure_time := some now, state := .open }) := by
  unfold CB.callBody
  exact if_pos h

theorem CB.callBody_failMatch_lt (cb : CB) (now : ℚ)
    (h : cb.failure_count + 1 < cb.failure_threshold) :
    CB.callBody cb now .failMatch
      = (.opFailed true,
         { cb with failure_count := cb.failure_count + 1,
                   last_failure_time := some now }) := by
  unfold CB.callBody
  exact if_neg (by simp only [not_le]; exact h)

theorem CB.callBody_failNonMatch (cb : CB) (now : ℚ) :
    CB.callBody cb now .failNonMatch = (.opFailed false, cb) := rfl

/-- Invariant of reachable breaker states: the construction parameters are
preserved, and in `open`/`half_open` the failure count has reached the
threshold and a last-failure time is recorded. -/
theorem CB.reachable_inv {th : Nat} {tmo : ℚ} {cb : CB}
    (h : CB.Reachable th tmo cb) :
    cb.failure_threshold = th ∧ cb.recovery_timeout = tmo
    ∧ ((cb.state = .open ∨ cb.state = .half_open) →
        th ≤ cb.failure_count ∧ cb.last_failure_time.isSome = true) := by
  induction h with
  | init =>
    refine ⟨rfl, rfl, fun hc => ?_⟩
    rcases hc with hc | hc <;> simp [CB.init] at hc
  | step cb now op hr ih =>
    obtain ⟨hth, htmo, hinv⟩ := ih
    have hbody : ∀ c : CB, c.failure_threshold = th → c.recovery_timeout = tmo →
        ((c.state = .open ∨ c.state = .half_open) →
          th ≤ c.failure_count ∧ c.last_failure_time.isSome = true) →
        (CB.callBody c now op).2.failure_threshold = th
        ∧ (CB.callBody c now op).2.recovery_timeout = tmo
        ∧ (((CB.callBody c now op).2.state = .open
            ∨ (CB.callBody c now op).2.state = .half_open) →
            th ≤ (CB.callBody c now op).2.failure_count
            ∧ (CB.callBody c now op).2.last_failure_time.isSome = true) := by
      intro c hcth hctmo hcinv
      cases op with
      | success =>
        by_cases hho : c.state = .half_open
        · rw [CB.callBody_success_halfOpen c now hho]
          exact ⟨hcth, hctmo, fun hc => by simp at hc⟩
        · rw [CB.callBody_success_other c now hho]
          exact ⟨hcth, hctmo, hcinv⟩
      | failMatch =>
        by_cases hge : c.failure_threshold ≤ c.failure_count + 1
        · rw [CB.callBody_failMatch_ge c now hge]
          exact ⟨hcth, hctmo, fun _ => ⟨by rw [hcth] at hge; exact hge, rfl⟩⟩
        · rw [CB.callBody_failMatch_lt c now (by omega)]
          refine ⟨hcth, hctmo, fun hc => ?_⟩
          have hc2 : c.state = .open ∨ c.state = .half_open := hc
          exact ⟨le_trans (hcinv hc2).1 (Nat.le_succ _), rfl⟩
      | failNonMatch =>
        rw [CB.callBody_failNonMatch]
        exact ⟨hcth, hctmo, hcinv⟩
    by_cases hopen : cb.state = .open
    · have hfc := hinv (Or.inl hopen)
      cases hlft : cb.last_failure_time with
      | none => rw [hlft] at hfc; simp at hfc
      | some t =>
        by_cases htime : cb.recovery_timeout ≤ now - t
        · rw [CB.call_open_elapsed cb now t op hopen hlft htime]
          refine hbody _ hth htmo ?_
          intro _
          refine ⟨hfc.1, ?_⟩
          show cb.last_failure_time.isSome = true
          rw [hlft]
          rfl
        · rw [CB.call_open_within cb now t op hopen hlft (not_le.mp htime)]
          exact ⟨hth, htmo, hinv⟩
    · rw [CB.call_not_open cb now op hopen]
      exact hbody cb hth htmo hinv

/-- C5: the three-state machine of `CircuitBreaker.call` on any reachable
breaker: a matching failure that brings the count to the threshold opens
the circuit; while open and inside the recovery window every call fails
fast with the circuit-open error, leaving the breaker untouched and never
running the wrapped operation; once the window has elapsed the next call
runs half-open — on success the breaker closes with the failure count
reset to 0, on a matching failure it returns to open. -/
theorem circuit_breaker_state_machine {th : Nat} {tmo : ℚ} {cb : CB}
    (hr : CB.Reachable th tmo cb) (now t : ℚ) :
    (cb.state = .closed → cb.failure_threshold ≤ cb.failure_count + 1 →
      (CB.call cb now .failMatch).2.state = .open)
    ∧ (cb.state = .open → cb.last_failure_time = some t →
        now - t < cb.recovery_timeout →
        ∀ op, CB.call cb now op = (.circuitOpenError, cb))
    ∧ (cb.state = .open → cb.last_failure_time = some t →
        cb.recovery_timeout ≤ now - t →
        CB.call cb now .success
          = (.ok, { cb with state := .closed, failure_count := 0 })
        ∧ (CB.call cb now .failMatch).2.state = .open
        ∧ (CB.call cb now .failMatch).1 = .opFailed true) := by
  obtain ⟨hth, htmo, hinv⟩ := CB.reachable_inv hr
  refine ⟨?_, ?_, ?_⟩
  · intro hst hge
    rw [CB.call_not_open cb now .failMatch (by rw [hst]; simp),
        CB.callBody_failMatch_ge cb now hge]
  · intro hst hlft htime op
    exact CB.call_open_within cb now t op hst hlft htime
  · intro hst hlft htime
    have hfc : th ≤ cb.failure_count := (hinv (Or.inl hst)).1
    rw [CB.call_open_elapsed cb now t .success hst hlft htime,
        CB.call_open_elapsed cb now t .failMatch hst hlft htime,
        CB.callBody_success_halfOpen _ now rfl,
        CB.callBody_failMatch_ge _ now
          (by show cb.failure_threshold ≤ cb.failure_count + 1; rw [hth]; omega)]
    exact ⟨rfl, rfl, rfl⟩
theorem circuit_breaker_state_machine_witness :
    CB.call (CB.call (CB.init 1 10) 0 .failMatch).2 5 .success
      = (.circuitOpenError, (CB.call (CB.init 1 10) 0 .failMatch).2)
    ∧ CB.call (CB.call (CB.init 1 10) 0 .failMatch).2 20 .success
      = (.ok, { (CB.call (CB.init 1 10) 0 .failMatch).2 with
                state := .closed, failure_count := 0 })
    ∧ (CB.call (CB.call (CB.init 1 10) 0 .failMatch).2 20 .failMatch).2.state
      = .open := by
  have hr : CB.Reachable 1 10 (CB.call (CB.init 1 10) 0 .failMatch).2 :=
    CB.Reachable.step _ 0 .failMatch CB.Reachable.init
  have h5 := circuit_breaker_state_machine hr 5 0
  have h20 := circuit_breaker_state_machine hr 20 0
  have hcb : (CB.call (CB.init 1 10) 0 .failMatch).2
      = ⟨1, 10, 1, some 0, .open⟩ := rfl
  rw [hcb] at h5 h20 ⊢
  refine ⟨h5.2.1 rfl rfl (by show (5 : ℚ) - 0 < 10; norm_num) .success, ?_, ?_⟩
  · exact (h20.2.2 rfl rfl (by show (10 : ℚ) ≤ 20 - 0; norm_num)).1
  · exact (h20.2.2 rfl rfl (by show (10 : ℚ) ≤ 20 - 0; norm_num)).2.1

/-- A sequence of calls through the breaker: each entry is the value of
`time.time()` during the call and the wrapped operation's behaviour. -/
def CB.runSeq (cb : CB) (l : List (ℚ × OpBehavior)) : CB :=
  l.foldl (fun c p => (CB.call c p.1 p.2).2) cb

/-- The number of matching failures in a call sequence. -/
def countFailOps (l : List (ℚ × OpBehavior)) : Nat :=
  (l.filter (fun p => p.2 == .failMatch)).length

theorem CB.runSeq_closed (l : List (ℚ × OpBehavior)) :
    ∀ cb : CB, cb.state = .closed →
    (∀ p ∈ l, p.2 = .success ∨ p.2 = .failMatch) →
    cb.failure_count + countFailOps l < cb.failure_threshold →
    (CB.runSeq cb l).state = .closed
    ∧ (CB.runSeq cb l).failure_count = cb.failure_count + countFailOps l
    ∧ (CB.runSeq cb l).failure_threshold = cb.failure_threshold := by
  induction l with
  | nil => intro cb hst _ _; exact ⟨hst, by simp [CB.runSeq, countFailOps], rfl⟩
  | cons p rest ih =>
    intro cb hst hops hcount
    rcases hops p (List.mem_cons_self p rest) with hop | hop
    · have hstep : (CB.call cb p.1 p.2).2 = cb := by
        rw [hop, CB.call_not_open cb p.1 .success (by rw [hst]; simp),
            CB.callBody_success_other cb p.1 (by rw [hst]; simp)]
      have hcf : countFailOps (p :: rest) = countFailOps rest := by
        unfold countFailOps
        rw [List.filter_cons_of_neg (by simp [hop])]
      have hrun : CB.runSeq cb (p :: rest) = CB.runSeq cb rest := by
        unfold CB.runSeq
        rw [List.foldl_cons, hstep]
      rw [hrun, hcf]
      exact ih cb hst (fun q hq => hops q (List.mem_cons_of_mem p hq))
        (by rw [hcf] at hcount; exact hcount)
    · have hcf : countFailOps (p :: rest) = countFailOps rest + 1 := by
        unfold countFailOps
        rw [List.filter_cons_of_pos (by simp [hop])]
        simp [Nat.add_comm]
      have hlt : cb.failure_count + 1 < cb.failure_threshold := by
        rw [hcf] at hcount; omega
      have hstep : (CB.call cb p.1 p.2).2
          = { cb with failure_count := cb.failure_count + 1,
                      last_failure_time := some p.1 } := by
        rw [hop, CB.call_not_open cb p.1 .failMatch (by rw [hst]; simp),
            CB.callBody_failMatch_lt cb p.1 hlt]
      have hrun : CB.runSeq cb (p :: rest) = CB.runSeq
          { cb with failure_count := cb.failure_count + 1,
                    last_failure_time := some p.1 } rest := by
        unfold CB.runSeq
        rw [List.foldl_cons, hstep]
      rw [hrun]
      have hres := ih
        { cb with failure_count := cb.failure_count + 1,
                  last_failure_time := some p.1 }
        hst (fun q hq => hops q (List.mem_cons_of_mem p hq))
        (by show cb.failure_count + 1 + countFailOps rest < cb.failure_threshold
            rw [hcf] at hcount; omega)
      refine ⟨hres.1, ?_, hres.2.2⟩
      rw [hres.2.1, hcf]
      show cb.failure_count + 1 + countFailOps rest = _
      omega

/-- C10: a successful call on a closed breaker leaves it entirely unchanged
(in particular `failure_count`); across any single call the failure count
is either kept, incremented by a matching failure, or reset to 0 — and a
reset happens only for a successful call executing in the half-open state;
consequently, starting from a fresh breaker, `failure_threshold` matching
failures interleaved with arbitrarily many successful calls open the
circuit (the failures need not be consecutive). -/
theorem circuit_breaker_failure_count_accounting :
    (∀ (cb : CB) (now : ℚ), cb.state = .closed →
      CB.call cb now .success = (.ok, cb))
    ∧ (∀ (cb : CB) (now : ℚ) (op : OpBehavior),
        (CB.call cb now op).2.failure_count = cb.failure_count
        ∨ (CB.call cb now op).2.failure_count = cb.failure_count + 1
        ∨ (op = .success ∧ (CB.call cb now op).2.failure_count = 0
            ∧ (cb.state = .half_open
               ∨ (cb.state = .open ∧ ∃ t, cb.last_failure_time = some t
                   ∧ cb.recovery_timeout ≤ now - t))))
    ∧ (∀ (th : Nat) (tmo : ℚ) (l : List (ℚ × OpBehavior)),
        (∀ p ∈ l, p.2 = .success ∨ p.2 = .failMatch) →
        countFailOps l < th →
        (CB.runSeq (CB.init th tmo) l).state = .closed
        ∧ (CB.runSeq (CB.init th tmo) l).failure_count = countFailOps l)
    ∧ (∀ (th : Nat) (tmo : ℚ) (l : List (ℚ × OpBehavior)) (now : ℚ),
        (∀ p ∈ l, p.2 = .success ∨ p.2 = .failMatch) →
        countFailOps l + 1 = th →
        (CB.call (CB.runSeq (CB.init th tmo) l) now .failMatch).2.state
          = .open) := by
  have hclosed : ∀ (cb : CB) (now : ℚ), cb.state = .closed →
      CB.call cb now .success = (.ok, cb) := by
    intro cb now hst
    rw [CB.call_not_open cb now .success (by rw [hst]; simp),
        CB.callBody_success_other cb now (by rw [hst]; simp)]
  refine ⟨hclosed, ?_, ?_, ?_⟩
  · intro cb now op
    by_cases hopen : cb.state = .open
    · cases hlft : cb.last_failure_time with
      | none =>
        left
        unfold CB.call
        rw [if_pos hopen, hlft]
      | some t =>
        by_cases htime : cb.recovery_timeout ≤ now - t
        · rw [CB.call_open_elapsed cb now t op hopen hlft htime]
          cases op with
          | success =>
            right; right
            rw [CB.callBody_success_halfOpen _ now rfl]
            exact ⟨rfl, rfl, Or.inr ⟨hopen, t, rfl, htime⟩⟩
          | failMatch =>
            by_cases hge : ({ cb with state := CBState.half_open } : CB).failure_threshold
                ≤ ({ cb with state := CBState.half_open } : CB).failure_count + 1
            · rw [CB.callBody_failMatch_ge _ now hge]; right; left; rfl
            · rw [CB.callBody_failMatch_lt _ now (not_le.mp hge)]; right; left; rfl
          | failNonMatch =>
            left
            rw [CB.callBody_failNonMatch]
        · rw [CB.call_open_within cb now t op hopen hlft (not_le.mp htime)]
          left; rfl
    · rw [CB.call_not_open cb now op hopen]
      cases op with
      | success =>
        by_cases hho : cb.state = .half_open
        · right; right
          rw [CB.callBody_success_halfOpen cb now hho]
          exact ⟨rfl, rfl, Or.inl hho⟩
        · left
          rw [CB.callBody_success_other cb now hho]
      | failMatch =>
        by_cases hge : cb.failure_threshold ≤ cb.failure_count + 1
        · rw [CB.callBody_failMatch_ge cb now hge]; right; left; rfl
        · rw [CB.callBody_failMatch_lt cb now (not_le.mp hge)]; right; left; rfl
      | failNonMatch =>
        left
        rw [CB.callBody_failNonMatch]
  · intro th tmo l hops hcount
    have h := CB.runSeq_closed l (CB.init th tmo) rfl hops
      (by show 0 + countFailOps l < th; omega)
    exact ⟨h.1, by rw [h.2.1]; show 0 + countFailOps l = countFailOps l; omega⟩
  · intro th tmo l now hops hcount
    have h := CB.runSeq_closed l (CB.init th tmo) rfl hops
      (by show 0 + countFailOps l < th; omega)
    rw [CB.call_not_open _ now .failMatch (by rw [h.1]; simp),
        CB.callBody_failMatch_ge _ now (by rw [h.2.2, h.2.1]; show th ≤ _; omega)]

/-- Witness for C10: with threshold 2, a failure at time 0, a success at
time 1 (which does not reset the count), then a second failure at time 2
opens the circuit even though the two failures were not consecutive. -/
theorem circuit_breaker_failure_count_accounting_witness :
    (CB.runSeq (CB.init 2 10) [(0, .failMatch), (1, .success)]).failure_count = 1
    ∧ (CB.call (CB.runSeq (CB.init 2 10) [(0, .failMatch), (1, .success)])
        2 .failMatch).2.state = .open := by
  have h3 := circuit_breaker_failure_count_accounting.2.2.1 2 10
    [(0, .failMatch), (1, .success)] (by decide) (by decide)
  have h4 := circuit_breaker_failure_count_accounting.2.2.2 2 10
    [(0, .failMatch), (1, .success)] 2 (by decide) (by decide)
  exact ⟨h3.2, h4⟩

/-! ### Scheduler lemmas -/

theorem filter_ne_then_eq (id : String) (l : List SchedJob) :
    (l.filter (fun j0 => j0.id ≠ id)).filter (fun j => j.id = id) = [] := by
  induction l with
  | nil => rfl
  | cons j rest ih =>
    by_cases h : j.id = id
    · rw [List.filter_cons_of_neg (by simp [h])]
      exact ih
    · rw [List.filter_cons_of_pos (by simp [h]), List.filter_cons_of_neg (by simp [h])]
      exact ih

/-- C8: `start()` is idempotent — a second `start()` with no intervening
`stop()` is a no-op on the scheduler state — and starting from a
not-yet-running scheduler, two consecutive `start()` calls leave exactly
one trigger registered under the single id `"video_generation_job"`. -/
theorem scheduler_start_idempotent (schedule_interval_hours : Nat) (s : SchedState) :
    start_scheduler schedule_interval_hours (start_scheduler schedule_interval_hours s)
      = start_scheduler schedule_interval_hours s
    ∧ (s.running = false →
        triggerCount
          (start_scheduler schedule_interval_hours
            (start_scheduler schedule_interval_hours s))
          "video_generation_job" = 1) := by
  constructor
  · by_cases hr : s.running
    · have h1 : start_scheduler schedule_interval_hours s = s := by
        unfold start_scheduler
        rw [if_pos hr]
      rw [h1, h1]
    · have h1 : start_scheduler schedule_interval_hours s
          = ⟨true, (addJobReplacing s (videoGenerationJob schedule_interval_hours)).jobs⟩ := by
        unfold start_scheduler
        rw [if_neg hr]
      rw [h1]
      unfold start_scheduler
      rw [if_pos rfl]
  · intro hr
    have h1 : start_scheduler schedule_interval_hours s
        = ⟨true, (addJobReplacing s (videoGenerationJob schedule_interval_hours)).jobs⟩ := by
      unfold start_scheduler
      rw [if_neg (by rw [hr]; simp)]
    rw [h1]
    unfold start_scheduler
    rw [if_pos rfl]
    unfold triggerCount addJobReplacing videoGenerationJob
    simp only [List.filter_append]
    rw [filter_ne_then_eq]
    rfl

/-- Witness for C8: two consecutive `start()` calls on the fresh scheduler
singleton leave exactly one `"video_generation_job"` trigger. -/
theorem scheduler_start_idempotent_witness :
    (SchedState.mk false []).running = false
    ∧ triggerCount
        (start_scheduler 8 (start_scheduler 8 ⟨false, []⟩))
        "video_generation_job" = 1 :=
  ⟨rfl, (scheduler_start_idempotent 8 ⟨false, []⟩).2 rfl⟩

/-! ### Batch-executor lemmas -/

/-- The first ultimately-failing task in completion order, with its error
message. -/
def firstFailure (fail : Nat → Option String) : List Nat → Option (Nat × String)
  | [] => none
  | i :: rest =>
    match fail i with
    | some m => some (i, m)
    | none => firstFailure fail rest

theorem collectClips_fails (dir : String) (dur : Nat → ℚ)
    (fail : Nat → Option String) :
    ∀ (order : List Nat) (clips : List (String × ℚ)) (i : Nat) (m : String),
      firstFailure fail order = some (i, m) →
      collectClips dir dur fail order clips
        = .error (.vge ("Scene " ++ Nat.repr (i + 1) ++ " generation failed: " ++ m)) := by
  intro order
  induction order with
  | nil => intro _ _ _ h; simp [firstFailure] at h
  | cons j rest ih =>
    intro clips i m h
    unfold collectClips
    cases hj : fail j with
    | some msg =>
      unfold firstFailure at h
      rw [hj] at h
      simp only [Option.some.injEq, Prod.mk.injEq] at h
      rw [h.1, h.2]
    | none =>
      unfold firstFailure at h
      rw [hj] at h
      exact ih _ i m h

theorem firstFailure_of_exists (fail : Nat → Option String) :
    ∀ order : List Nat, (∃ j ∈ order, (fail j).isSome) →
      ∃ i m, firstFailure fail order = some (i, m) ∧ i ∈ order ∧ fail i = some m := by
  intro order
  induction order with
  | nil => intro h; simp at h
  | cons j rest ih =>
    intro h
    cases hj : fail j with
    | some msg =>
      exact ⟨j, msg, by unfold firstFailure; rw [hj], List.mem_cons_self j rest, hj⟩
    | none =>
      obtain ⟨k, hk, hks⟩ := h
      rcases List.mem_cons.mp hk with hkj | hkr
      · rw [hkj, hj] at hks; simp at hks
      · obtain ⟨i, m, h1, h2, h3⟩ := ih ⟨k, hkr, hks⟩
        exact ⟨i, m, by unfold firstFailure; rw [hj]; exact h1,
          List.mem_cons_of_mem j h2, h3⟩

/-- C4: whenever some task of the batch ultimately fails, the batch
executor returns no partial list of sibling results: it raises a single
`VideoGenerationError` naming the failing task's scene number and carrying
the underlying cause (the first failure in completion order), and every
already-collected sibling result is discarded. -/
theorem batch_fails_as_a_whole (dir : String) (dur : Nat → ℚ)
    (fail : Nat → Option String) (order : List Nat)
    (h : ∃ j ∈ order, (fail j).isSome) :
    ∃ i m, i ∈ order ∧ fail i = some m
      ∧ generate_clips_batch dir dur fail order
        = .error (.vge ("Scene " ++ Nat.repr (i + 1) ++ " generation failed: " ++ m)) := by
  obtain ⟨i, m, h1, h2, h3⟩ := firstFailure_of_exists fail order h
  refine ⟨i, m, h2, h3, ?_⟩
  unfold generate_clips_batch
  rw [collectClips_fails dir dur fail order [] i m h1]

/-- Witness for C4: tasks `[A, B, C]` where the middle task `B` (index 1)
permanently fails; the batch is a single aggregate error naming scene 2,
with `A`'s and `C`'s completed results discarded. -/
theorem batch_fails_as_a_whole_witness :
    (∃ j ∈ [0, 1, 2], ((fun k => if k = 1 then some "boom" else none) j).isSome)
    ∧ ∃ i m, i ∈ [0, 1, 2]
        ∧ (fun k => if k = 1 then some "boom" else none) i = some m
        ∧ generate_clips_batch "out" (fun _ => 8)
            (fun k => if k = 1 then some "boom" else none) [0, 1, 2]
          = .error (.vge ("Scene " ++ Nat.repr (i + 1) ++ " generation failed: " ++ m)) :=
  ⟨by decide,
   batch_fails_as_a_whole "out" (fun _ => 8)
     (fun k => if k = 1 then some "boom" else none) [0, 1, 2] (by decide)⟩

/-! ### Validation-gate lemmas -/

/-- The per-rule issue lists of `validate_script`, stated independently of
one another (each mirrors one rule block of the source). -/
def requiredIssues (sd : ScriptData) : List String :=
  (if sd.title.isSome then [] else ["Missing required field: title"])
  ++ (if sd.description.isSome then [] else ["Missing required field: description"])
  ++ (if sd.tags.isPresent then [] else ["Missing required field: tags"])
  ++ (if sd.scenes.isPresent then [] else ["Missing required field: scenes"])

def titleIssues (sd : ScriptData) : List String :=
  match sd.title with
  | none => []
  | some title =>
    if title = "" then ["Title is empty"]
    else if title.length > 100 then
      ["Title too long: " ++ Nat.repr title.length ++ " chars (max 100)"]
    else []

def descriptionIssues (sd : ScriptData) : List String :=
  match sd.description with
  | none => []
  | some description =>
    if description = "" then ["Description is empty"]
    else if description.length > 5000 then
      ["Description too long: " ++ Nat.repr description.length ++ " chars (max 5000)"]
    else []

def tagsIssues (sd : ScriptData) : List String :=
  match sd.tags with
  | .absent => []
  | .wrongType _ => ["Tags must be a list"]
  | .val tags => if tags.length = 0 then ["No tags provided"] else []

def scenesIssues (sd : ScriptData) : List String :=
  match sd.scenes with
  | .absent => []
  | .wrongType _ => ["Scenes must be a list"]
  | .val scenes =>
    if scenes.length = 0 then ["No scenes provided"]
    else (scenes.enum.map (fun p => validate_scene p.2 (p.1 + 1))).flatten

def totalDurationIssues (cfg : Config) (scenes : List Scene) : List String :=
  let total := (scenes.map (fun sc => sc.duration.getNum)).sum
  if total ≥ cfg.max_video_duration then
    ["Total duration " ++ ratStr total ++ "s exceeds maximum "
      ++ ratStr cfg.max_video_duration ++ "s"]
  else []

theorem validate_script_shape (cfg : Config) (sd : ScriptData)
    (passed : Bool) (issues : List String)
    (h : validate_script cfg sd = .ok (passed, issues)) :
    (∃ tail, issues = requiredIssues sd ++ titleIssues sd ++ descriptionIssues sd
      ++ tagsIssues sd ++ scenesIssues sd ++ tail)
    ∧ passed = issues.isEmpty := by
  cases hs : sd.scenes with
  | absent =>
    unfold validate_script at h
    rw [hs] at h
    simp only [Except.ok.injEq, Prod.mk.injEq] at h
    refine ⟨⟨[], ?_⟩, by rw [← h.1, ← h.2]⟩
    rw [← h.2]
    unfold requiredIssues titleIssues descriptionIssues tagsIssues scenesIssues
    rw [hs]
    simp [List.append_assoc]
  | wrongType r =>
    unfold validate_script at h
    rw [hs] at h
    simp only [Except.ok.injEq, Prod.mk.injEq] at h
    refine ⟨⟨[], ?_⟩, by rw [← h.1, ← h.2]⟩
    rw [← h.2]
    unfold requiredIssues titleIssues descriptionIssues tagsIssues scenesIssues
    rw [hs]
    simp [List.append_assoc]
  | val scenes =>
    unfold validate_script at h
    rw [hs] at h
    dsimp only at h
    by_cases hw : scenes.any (fun sc => sc.duration.isWrongTypeB)
    · rw [if_pos hw] at h
      exact absurd h (by simp)
    · rw [if_neg hw] at h
      simp only [Except.ok.injEq, Prod.mk.injEq] at h
      refine ⟨⟨totalDurationIssues cfg scenes, ?_⟩, by rw [← h.1, ← h.2]⟩
      rw [← h.2]
      unfold requiredIssues titleIssues descriptionIssues tagsIssues scenesIssues
        totalDurationIssues
      rw [hs]

/-- Configuration with the default thresholds of `config.py`
(`max_video_duration = 59`, 1080x1920) and auto-cleanup enabled. -/
def cfgTest : Config := ⟨59, 1080, 1920, true⟩

/-- A 101-character title (over the 100-character bound). -/
def title101 : String := String.mk (List.replicate 101 'a')

/-- A scene satisfying every scene rule. -/
def sceneOk : Scene := ⟨true, some "A calm ocean", some "The ocean is vast", .val 5⟩

/-- A script violating exactly two independent rules: over-long title and
empty tag list. -/
def sdTwoViolations : ScriptData :=
  ⟨some title101, some "Ocean facts short", .val [], .val [sceneOk]⟩

/-- Evaluation of `validate_script` on the two-violation script. -/
theorem validate_script_sdTwo :
    validate_script cfgTest sdTwoViolations
      = .ok (false, ["Title too long: 101 chars (max 100)", "No tags provided"]) := by
  unfold validate_script sdTwoViolations
  dsimp only
  rw [if_neg (by decide)]
  norm_num [title101, sceneOk, validate_scene, pyStrip, PyField.isPresent,
    PyField.isWrongTypeB, PyField.getNum, cfgTest]
  simp +decide

/-- C2 (amended): `validate_script` never short-circuits — every violated
rule contributes its issue to the report of a single call, whichever other
rules have already failed, a report passes exactly when it lists no issue,
and a subject violating exactly two independent rules yields exactly those
two issues. (As stated over all three entry points the claim is false:
`validate_audio`/`validate_video` return early on their missing-file and
empty-file guards, see the counterexample.) -/
theorem validate_script_surfaces_all_violations :
    (∀ (cfg : Config) (sd : ScriptData) (passed : Bool) (issues : List String),
      validate_script cfg sd = .ok (passed, issues) →
      ((∀ t, sd.title = some t → 100 < t.length →
          ("Title too long: " ++ Nat.repr t.length ++ " chars (max 100)") ∈ issues)
        ∧ (sd.title = some "" → "Title is empty" ∈ issues)
        ∧ (sd.description = some "" → "Description is empty" ∈ issues)
        ∧ (sd.tags = .val [] → "No tags provided" ∈ issues)
        ∧ (sd.tags = .absent → "Missing required field: tags" ∈ issues)
        ∧ (sd.scenes = .val [] → "No scenes provided" ∈ issues)
        ∧ (passed = true ↔ issues = [])))
    ∧ validate_script cfgTest sdTwoViolations
        = .ok (false, ["Title too long: 101 chars (max 100)", "No tags provided"]) := by
  constructor
  · intro cfg sd passed issues h
    obtain ⟨⟨tail, htail⟩, hpassed⟩ := validate_script_shape cfg sd passed issues h
    refine ⟨?_, ?_, ?_, ?_, ?_, ?_, ?_⟩
    · intro t ht hlen
      have ht0 : ¬ t = "" := by
        rintro rfl
        simp at hlen
      have hti : titleIssues sd
          = ["Title too long: " ++ Nat.repr t.length ++ " chars (max 100)"] := by
        simp only [titleIssues, ht]
        rw [if_neg ht0, if_pos hlen]
      rw [htail]
      simp [hti]
    · intro ht
      have hti : titleIssues sd = ["Title is empty"] := by
        simp [titleIssues, ht]
      rw [htail]
      simp [hti]
    · intro hd
      have hdi : descriptionIssues sd = ["Description is empty"] := by
        simp [descriptionIssues, hd]
      rw [htail]
      simp [hdi]
    · intro hg
      have hgi : tagsIssues sd = ["No tags provided"] := by
        simp [tagsIssues, hg]
      rw [htail]
      simp [hgi]
    · intro hg
      have hri : "Missing required field: tags" ∈ requiredIssues sd := by
        simp [requiredIssues, hg, PyField.isPresent]
      rw [htail]
      simp only [List.mem_append]
      exact Or.inl (Or.inl (Or.inl (Or.inl (Or.inl hri))))
    · intro hsc
      have hsi : scenesIssues sd = ["No scenes provided"] := by
        simp [scenesIssues, hsc]
      rw [htail]
      simp [hsi]
    · rw [hpassed]
      exact List.isEmpty_iff
  · exact validate_script_sdTwo

/-- Witness for C2 (amended) on the two-violation script: the tags rule's
issue is surfaced even though the title rule failed first, and the report
lists exactly the two issues. -/
theorem validate_script_surfaces_all_violations_witness :
    ("No tags provided"
      ∈ ["Title too long: 101 chars (max 100)", "No tags provided"])
    ∧ ("Title too long: 101 chars (max 100)"
      ∈ ["Title too long: 101 chars (max 100)", "No tags provided"]) := by
  have h := (validate_script_surfaces_all_violations.1 cfgTest sdTwoViolations
    false ["Title too long: 101 chars (max 100)", "No tags provided"]
    validate_script_sdTwo)
  refine ⟨h.2.2.2.1 rfl, ?_⟩
  have h2 := h.1 title101 rfl (by decide)
  have he : "Title too long: 101 chars (max 100)"
      = "Title too long: " ++ Nat.repr title101.length ++ " chars (max 100)" := by
    decide
  rw [he]
  exact h2

/-- A filesystem on which the audio artifact exists but is empty, and on
which the probe fails. -/
def fsEmptyAudio : MediaFS :=
  ⟨fun _ => true, fun _ => 0,
   fun _ => .fail "could not read header", fun _ => .fail "could not read header"⟩

/-- C2 is false as stated: for the audio entry point, a subject violating
two independent rules (the empty-file rule and the probe rule, whose issue
would be `"Failed to probe audio: could not read header"`) yields a report
with a single issue — `validate_audio` returns as soon as the empty-file
guard fails, so not all rules run. -/
theorem validate_audio_short_circuits :
    fsEmptyAudio.fileSize "narration.mp3" = 0
    ∧ fsEmptyAudio.audioProbe "narration.mp3" = .fail "could not read header"
    ∧ validate_audio cfgTest fsEmptyAudio "narration.mp3" none
        = (false, ["Audio file is empty"])
    ∧ ("Failed to probe audio: could not read header"
        ∉ (validate_audio cfgTest fsEmptyAudio "narration.mp3" none).2) := by
  refine ⟨rfl, rfl, rfl, ?_⟩
  decide

/-! ### Batch ordering: `charListLt` is the lexicographic order -/

theorem charListLt_iff_lex : ∀ l₁ l₂ : List Char,
    charListLt l₁ l₂ = true ↔ List.Lex (· < ·) l₁ l₂ := by
  intro l₁
  induction l₁ with
  | nil =>
    intro l₂
    cases l₂ with
    | nil =>
      simp only [charListLt, Bool.false_eq_true, false_iff]
      exact fun h => by cases h
    | cons b bs =>
      simp only [charListLt, true_iff]
      exact List.Lex.nil
  | cons a as ih =>
    intro l₂
    cases l₂ with
    | nil =>
      simp only [charListLt, Bool.false_eq_true, false_iff]
      exact fun h => by cases h
    | cons b bs =>
      simp only [charListLt]
      by_cases hab : a < b
      · simp only [hab, if_true, true_iff]
        exact List.Lex.rel hab
      · by_cases hba : b < a
        · simp only [hab, hba, if_false, reduceIte, Bool.false_eq_true, false_iff]
          intro h
          cases h with
          | cons h => exact absurd rfl (ne_of_gt hba)
          | rel h => exact absurd h hab
        · have hEq : a = b := le_antisymm (not_lt.mp hba) (not_lt.mp hab)
          subst hEq
          simp only [hab, hba, if_false, reduceIte]
          rw [ih bs]
          exact (List.Lex.cons_iff (r := (· < ·))).symm

theorem pyStrLt_iff_lex (s t : String) :
    pyStrLt s t = true ↔ List.Lex (· < ·) s.toList t.toList :=
  charListLt_iff_lex s.toList t.toList

theorem pyStrLe_iff_not_lex (s t : String) :
    pyStrLe s t = true ↔ ¬ List.Lex (· < ·) t.toList s.toList := by
  unfold pyStrLe
  rw [Bool.not_eq_true', ← Bool.not_eq_true (pyStrLt t s)]
  exact not_congr (pyStrLt_iff_lex t s)

instance : IsTrichotomous Char (· < ·) := ⟨lt_trichotomy⟩

theorem pyStrLt_asymm {s t : String} (h : pyStrLt s t = true) :
    ¬ pyStrLt t s = true := by
  rw [pyStrLt_iff_lex] at h ⊢
  exact asymm h

instance : IsTotal (String × ℚ) clipLe :=
  ⟨fun a b => by
    unfold clipLe
    by_cases h : pyStrLt b.1 a.1 = true
    · right
      rw [pyStrLe_iff_not_lex]
      rw [pyStrLt_iff_lex] at h
      exact asymm h
    · left
      unfold pyStrLe
      rw [Bool.not_eq_true] at h
      rw [h]
      rfl⟩

instance : IsTrans (String × ℚ) clipLe :=
  ⟨fun a b c hab hbc => by
    unfold clipLe at *
    rw [pyStrLe_iff_not_lex] at hab hbc ⊢
    intro hca
    rcases IsOrderConnected.conn _ b.1.toList _ hca with h | h
    · exact hbc h
    · exact hab h⟩

instance : IsAntisymm (String × ℚ) clipLt :=
  ⟨fun _ _ h1 h2 => absurd h2 (pyStrLt_asymm h1)⟩

theorem clipLe_ne_lt {a b : String × ℚ} (h1 : clipLe a b) (h2 : a.1 ≠ b.1) :
    clipLt a b := by
  unfold clipLe at h1
  unfold clipLt
  rw [pyStrLe_iff_not_lex] at h1
  rw [pyStrLt_iff_lex]
  rcases trichotomous_of (List.Lex ((· < ·) : Char → Char → Prop))
    a.1.toList b.1.toList with h | h | h
  · exact h
  · exact absurd (String.toList_inj.mp h) h2
  · exact absurd h h1

theorem clipLt_ne {a b : String × ℚ} (h : clipLt a b) : a.1 ≠ b.1 := by
  intro he
  unfold clipLt at h
  rw [pyStrLt_iff_lex, he] at h
  exact irrefl_of (List.Lex (· < ·)) _ h

theorem lexAppendLeft : ∀ (p : List Char) {s t : List Char},
    List.Lex (· < ·) s t → List.Lex (· < ·) (p ++ s) (p ++ t) := by
  intro p
  induction p with
  | nil => intro _ _ h; exact h
  | cons c cs ih => intro s t h; exact List.Lex.cons (ih h)

theorem scenePath_toList (dir : String) (id : Nat) :
    (scenePath dir id).toList
      = (dir ++ "/scene_").toList ++ (py02d id ++ ".mp4").toList := by
  unfold scenePath
  simp [String.toList, String.data_append, List.append_assoc]

set_option maxHeartbeats 1000000 in
theorem py02d_suffix_lt : ∀ a b : Fin 99, a.val < b.val →
    pyStrLt (py02d (a.val + 1) ++ ".mp4") (py02d (b.val + 1) ++ ".mp4") = true := by
  decide

/-- For scene ids `1 ≤ a < b ≤ 99` (two-digit zero-padded file names), the
output paths are strictly increasing in Python's string order. -/
theorem scenePath_lt (dir : String) {a b : Nat} (ha : 1 ≤ a) (hab : a < b)
    (hb : b ≤ 99) : pyStrLt (scenePath dir a) (scenePath dir b) = true := by
  have h := py02d_suffix_lt ⟨a - 1, by omega⟩ ⟨b - 1, by omega⟩ (by simp; omega)
  rw [show a - 1 + 1 = a by omega, show b - 1 + 1 = b by omega] at h
  rw [pyStrLt_iff_lex] at h ⊢
  rw [scenePath_toList, scenePath_toList]
  exact lexAppendLeft _ h

theorem collectClips_ok (dir : String) (dur : Nat → ℚ) :
    ∀ (order : List Nat) (clips : List (String × ℚ)),
      collectClips dir dur (fun _ => none) order clips
        = .ok (clips ++ order.map (fun i => (scenePath dir (i + 1), dur i))) := by
  intro order
  induction order with
  | nil => intro clips; simp [collectClips]
  | cons j rest ih =>
    intro clips
    unfold collectClips
    rw [ih]
    simp

/-- C3 (amended): for every batch of at most 99 all-succeeding tasks and
every completion order of the concurrent workers, the returned list of
`(clip, duration)` outcomes matches the original submission order. (The
bound comes from the sort key: the re-ordering sorts the zero-padded
output path strings, which agree with numeric scene order only up to
scene 99 — see the counterexample at 100 tasks.) -/
theorem batch_preserves_submission_order (dir : String) (dur : Nat → ℚ)
    (n : Nat) (hn : n ≤ 99) (order : List Nat)
    (hperm : order.Perm (List.range n)) :
    generate_clips_batch dir dur (fun _ => none) order
      = .ok (submissionClips dir dur n) := by
  unfold generate_clips_batch
  rw [collectClips_ok dir dur order []]
  simp only [List.nil_append]
  refine congrArg Except.ok ?_
  set f : Nat → String × ℚ := fun i => (scenePath dir (i + 1), dur i) with hf
  have hperm2 : (List.insertionSort clipLe (order.map f)).Perm
      ((List.range n).map f) :=
    (List.perm_insertionSort clipLe (order.map f)).trans (hperm.map f)
  have hsortedLe : List.Sorted clipLe (List.insertionSort clipLe (order.map f)) :=
    List.sorted_insertionSort clipLe (order.map f)
  have htargetLt : List.Sorted clipLt ((List.range n).map f) := by
    refine List.pairwise_map.mpr
      (List.Pairwise.imp_of_mem ?_ (List.pairwise_lt_range n))
    intro i j hi hj hij
    have hj99 : j + 1 ≤ 99 := by
      have := List.mem_range.mp hj
      omega
    exact scenePath_lt dir (by omega) (by omega) hj99
  have htargetNe : List.Pairwise (fun a b : String × ℚ => a.1 ≠ b.1)
      ((List.range n).map f) :=
    htargetLt.imp (fun h => clipLt_ne h)
  have hresNe : List.Pairwise (fun a b : String × ℚ => a.1 ≠ b.1)
      (List.insertionSort clipLe (order.map f)) := by
    refine (List.Perm.pairwise_iff ?_ hperm2).mpr htargetNe
    intro a b h
    exact fun he => h he.symm
  have hsortedLt : List.Sorted clipLt (List.insertionSort clipLe (order.map f)) := by
    refine (hsortedLe.and hresNe).imp ?_
    intro a b hab
    exact clipLe_ne_lt hab.1 hab.2
  exact List.eq_of_perm_of_sorted hperm2 hsortedLt htargetLt

/-- Witness for C3 at three tasks completing in the order `[2, 0, 1]`. -/
theorem batch_preserves_submission_order_witness :
    (3 ≤ 99) ∧ ([2, 0, 1].Perm (List.range 3))
    ∧ generate_clips_batch "out" (fun i => 8 / (i + 1) : Nat → ℚ)
        (fun _ => none) [2, 0, 1]
      = .ok (submissionClips "out" (fun i => 8 / (i + 1) : Nat → ℚ) 3) :=
  ⟨by decide, by decide,
   batch_preserves_submission_order "out" (fun i => 8 / (i + 1)) 3 (by decide)
     [2, 0, 1] (by decide)⟩

set_option maxHeartbeats 2000000 in
/-- C3 is false as stated for batches of 100 tasks: with every task
succeeding and workers completing in submission order, the path-keyed sort
places `scene_100.mp4` between `scene_10.mp4` and `scene_11.mp4`, so the
returned sequence does not match the submission order. -/
theorem batch_order_counterexample :
    generate_clips_batch "out" (fun _ => 8) (fun _ => none) (List.range 100)
      ≠ .ok (submissionClips "out" (fun _ => 8) 100) := by
  decide

/-! ### Orchestrator lemmas -/

theorem runSteps_cases (cfg : Config) (env : StageEnv) (job_id : String)
    (hdir : env.dirCreation = .ok ()) :
    (firstFailingStage cfg env = none ∧ ∃ r, runSteps cfg env job_id = .ok r)
    ∨ (∃ st, firstFailingStage cfg env = some st ∧ st ≠ ""
        ∧ ∃ m, runSteps cfg env job_id = .error (.pipe ⟨m, some st, some job_id⟩)) := by
  cases hs : env.scriptGen with
  | error m =>
    right
    exact ⟨"script_generation", by simp [firstFailingStage, hs], by decide,
      "Script generation failed: " ++ m,
      by simp [runSteps, hdir, step_generate_script, hs]⟩
  | ok sd =>
    cases hv : validate_script cfg sd with
    | error tymsg =>
      right
      exact ⟨"script_generation", by simp [firstFailingStage, hs, hv], by decide,
        "Script generation failed: " ++ tymsg,
        by simp [runSteps, hdir, step_generate_script, hs, hv]⟩
    | ok p =>
      obtain ⟨is_valid, issues⟩ := p
      cases is_valid with
      | false =>
        right
        exact ⟨"script_generation", by simp [firstFailingStage, hs, hv], by decide,
          "Script generation failed: " ++ ("Script validation failed: " ++ pyListRepr issues),
          by simp [runSteps, hdir, step_generate_script, hs, hv]⟩
      | true =>
        cases hsave : env.saveScript with
        | error m =>
          right
          exact ⟨"script_generation",
            by simp [firstFailingStage, hs, hv, hsave], by decide,
            "Script generation failed: " ++ m,
            by simp [runSteps, hdir, step_generate_script, hs, hv, hsave]⟩
        | ok u =>
          cases hc : env.clipsGen with
          | error m =>
            right
            exact ⟨"video_generation",
              by simp [firstFailingStage, hs, hv, hsave, hc], by decide,
              "Video generation failed: " ++ m,
              by simp [runSteps, hdir, step_generate_script, hs, hv, hsave,
                step_generate_video_clips, hc]⟩
          | ok clips =>
            cases ha : env.audioGen with
            | error m =>
              right
              exact ⟨"audio_generation",
                by simp [firstFailingStage, hs, hv, hsave, hc, ha], by decide,
                "Audio generation failed: " ++ m,
                by simp [runSteps, hdir, step_generate_script, hs, hv, hsave,
                  step_generate_video_clips, hc, step_generate_audio, ha]⟩
            | ok ad =>
              obtain ⟨audio_path, audio_duration⟩ := ad
              rcases hva : validate_audio cfg env.fs audio_path none with ⟨va, vai⟩
              cases va with
              | false =>
                right
                exact ⟨"audio_generation",
                  by simp [firstFailingStage, hs, hv, hsave, hc, ha, hva],
                  by decide,
                  "Audio generation failed: " ++ ("Audio validation failed: " ++ pyListRepr vai),
                  by simp [runSteps, hdir, step_generate_script, hs, hv, hsave,
                    step_generate_video_clips, hc, step_generate_audio, ha, hva]⟩
              | true =>
                cases hcomb : env.combine with
                | error m =>
                  right
                  exact ⟨"video_combination",
                    by simp [firstFailingStage, hs, hv, hsave, hc, ha, hva, hcomb],
                    by decide,
                    "Video combination failed: " ++ m,
                    by simp [runSteps, hdir, step_generate_script, hs, hv, hsave,
                      step_generate_video_clips, hc, step_generate_audio, ha, hva,
                      step_combine_video_audio, hcomb]⟩
                | ok vd =>
                  obtain ⟨video_path, video_duration⟩ := vd
                  rcases hvv : validate_video cfg env.fs video_path with ⟨vv, vvi⟩
                  cases vv with
                  | false =>
                    right
                    exact ⟨"video_combination",
                      by simp [firstFailingStage, hs, hv, hsave, hc, ha, hva,
                        hcomb, hvv],
                      by decide,
                      "Video combination failed: "
                        ++ ("Video validation failed: " ++ pyListRepr vvi),
                      by simp [runSteps, hdir, step_generate_script, hs, hv, hsave,
                        step_generate_video_clips, hc, step_generate_audio, ha, hva,
                        step_combine_video_audio, hcomb, hvv]⟩
                  | true =>
                    cases hu : env.upload with
                    | error m =>
                      right
                      exact ⟨"youtube_upload",
                        by simp [firstFailingStage, hs, hv, hsave, hc, ha, hva,
                          hcomb, hvv, hu],
                        by decide,
                        "YouTube upload failed: " ++ m,
                        by simp [runSteps, hdir, step_generate_script, hs, hv, hsave,
                          step_generate_video_clips, hc, step_generate_audio, ha,
                          hva, step_combine_video_audio, hcomb, hvv,
                          step_upload_to_youtube, hu]⟩
                    | ok urec =>
                      left
                      refine ⟨by simp [firstFailingStage, hs, hv, hsave, hc, ha, hva,
                        hcomb, hvv, hu], ?_⟩
                      simp [runSteps, hdir, step_generate_script, hs,
                        hv, hsave, step_generate_video_clips, hc,
                        step_generate_audio, ha, hva, step_combine_video_audio,
                        hcomb, hvv, step_upload_to_youtube, hu]

/-- C1: for every stage failure during `run_pipeline` (with the job
directories created), the orchestrator raises a structured `PipelineError`
whose `step` is exactly the failing stage and whose `job_id` is the job's
id; a script-stage validation failure is attributed to
`"script_generation"`; with auto-cleanup enabled the job's workspace is
deleted before the error propagates (`ws = false`), with it disabled the
workspace persists (`ws = true`); and no stage failure is ever swallowed:
the run returns success exactly when no stage fails. -/
theorem pipeline_failure_attribution (cfg : Config) (env : StageEnv)
    (job_id : String) (hdir : env.dirCreation = .ok ()) :
    (∀ pe ws, run_pipeline cfg env job_id = (.error pe, ws) →
        pe.job_id = some job_id
        ∧ pe.step = firstFailingStage cfg env
        ∧ ws = ! cfg.auto_cleanup)
    ∧ (firstFailingStage cfg env = none →
        ∃ r, run_pipeline cfg env job_id = (.ok r, true))
    ∧ ((firstFailingStage cfg env).isSome →
        ∃ pe ws, run_pipeline cfg env job_id = (.error pe, ws))
    ∧ (∀ sd issues, env.scriptGen = .ok sd →
        validate_script cfg sd = .ok (false, issues) →
        firstFailingStage cfg env = some "script_generation") := by
  have hcase := runSteps_cases cfg env job_id hdir
  have hok : ∀ r, runSteps cfg env job_id = .ok r →
      run_pipeline cfg env job_id = (.ok r, true) := by
    intro r hr
    unfold run_pipeline
    rw [hdir, hr]
  have herr : ∀ st m, st ≠ "" →
      runSteps cfg env job_id = .error (.pipe ⟨m, some st, some job_id⟩) →
      run_pipeline cfg env job_id
        = (.error ⟨"Pipeline execution failed: " ++ m, some st, some job_id⟩,
           ! cfg.auto_cleanup) := by
    intro st m hne hr
    unfold run_pipeline
    rw [hdir, hr]
    simp [get_current_step, RunExc.message, hne]
  refine ⟨?_, ?_, ?_, ?_⟩
  · intro pe ws hrun
    rcases hcase with ⟨hffs, r, hr⟩ | ⟨st, hffs, hne, m, hr⟩
    · rw [hok r hr] at hrun
      exact absurd hrun (by simp)
    · rw [herr st m hne hr] at hrun
      obtain ⟨h1, h2⟩ := Prod.mk.injEq .. ▸ hrun
      rw [← Except.error.inj h1, hffs, ← h2]
      exact ⟨rfl, rfl, rfl⟩
  · intro hnone
    rcases hcase with ⟨hffs, r, hr⟩ | ⟨st, hffs, hne, m, hr⟩
    · exact ⟨r, hok r hr⟩
    · rw [hffs] at hnone
      exact absurd hnone (by simp)
  · intro hsome
    rcases hcase with ⟨hffs, r, hr⟩ | ⟨st, hffs, hne, m, hr⟩
    · rw [hffs] at hsome
      exact absurd hsome (by simp)
    · exact ⟨_, _, herr st m hne hr⟩
  · intro sd issues hsd hval
    simp [firstFailingStage, hsd, hval]

/-- A probe view on which every media artifact looks healthy. -/
def fsAllOk : MediaFS :=
  ⟨fun _ => true, fun _ => 1000, fun _ => .ok 30,
   fun _ => .ok [⟨"video", 1080, 1920⟩, ⟨"audio", 0, 0⟩] 30⟩

/-- An environment in which every collaborator succeeds but the generated
script fails validation (over-long title, no tags). -/
def envBadScript : StageEnv :=
  { dirCreation := .ok (), scriptGen := .ok sdTwoViolations, saveScript := .ok (),
    clipsGen := .ok [], audioGen := .ok ("audio.mp3", 30),
    combine := .ok ("final.mp4", 30),
    upload := .ok ⟨"vid123", "https://u", "https://s"⟩, fs := fsAllOk }

/-- Witness for C1: a script-stage validation failure with auto-cleanup
enabled yields a `PipelineError` tagged `"script_generation"` with the
job's id, and the workspace is deleted. -/
theorem pipeline_failure_attribution_witness :
    ∃ pe ws, run_pipeline cfgTest envBadScript "job1" = (.error pe, ws)
      ∧ pe.job_id = some "job1" ∧ pe.step = some "script_generation"
      ∧ ws = false := by
  have h := pipeline_failure_attribution cfgTest envBadScript "job1" rfl
  have hffs : firstFailingStage cfgTest envBadScript = some "script_generation" :=
    h.2.2.2 sdTwoViolations ["Title too long: 101 chars (max 100)", "No tags provided"]
      rfl validate_script_sdTwo
  obtain ⟨pe, ws, hrun⟩ := h.2.2.1 (by rw [hffs]; rfl)
  obtain ⟨h1, h2, h3⟩ := h.1 pe ws hrun
  exact ⟨pe, ws, hrun, h1, by rw [h2, hffs], by rw [h3]; rfl⟩

end YtShorts
